import Mathlib

/-!
Verification of the StockIQ agent-coordination core.

This file is a shallow embedding of the data model of
`src/models/collaboration.py` and of the coordinator service
`src/services/agent_coordinator.py`, together with theorems settling the
claims about them.

Modelling conventions:
* Python dicts keyed by strings become functions `String → Option α`;
  dict update is `fupd`.
* Python floats become `ℚ`; every value the coordinator ever assigns to
  `progress_percentage` is dyadic (k/4 · 100) and hence exact in both
  binary floating point and `ℚ`.
* `datetime` fields are abstracted to presence (`Option Unit`): the claims
  only ever ask whether `completed_at` is set.
* Agent execution (`conduct_research` of a real agent) is external
  nondeterminism: an `Env` oracle gives the success flag of the n-th
  real-agent execution.  Mock executions (`_mock_agent_execution`)
  always succeed, as in the source.
* The two asyncio suspension points of the coordinator (awaiting an agent
  and the backoff sleep) are the only points at which another task can
  observe a session's state; the embedding records an `Obs` snapshot of
  the session's status at each such point (plus the initial state after
  `start_research_process` and the terminal state when the workflow task
  ends).  `sleepTrace` records the argument of every backoff
  `asyncio.sleep`.
-/

namespace StockIQ

set_option maxRecDepth 100000
set_option maxHeartbeats 12000000

/-- Python `str` whitespace for `str.strip()` (all strings arising here are
ASCII, so the ASCII whitespace set is exact). -/
def pyIsSpace (c : Char) : Bool :=
  c == ' ' || c == '\t' || c == '\n' || c == '\r' || c == '\x0b' || c == '\x0c'

/-- Python `s.strip()` (structurally recursive so that it reduces in the
kernel, unlike `String.trim`). -/
def pyStrip (s : String) : String :=
  String.mk (((s.data.dropWhile pyIsSpace).reverse.dropWhile pyIsSpace).reverse)

/-- Python `s.split('_')[0]`: the characters before the first `'_'`. -/
def pySplitHead (s : String) : String :=
  String.mk (s.data.takeWhile (fun c => c != '_'))

/-- Dict update for string-keyed maps (`d[k] = v`, or `del d[k]` with `none`). -/
def fupd {α : Type} (f : String → Option α) (k : String) (v : Option α) :
    String → Option α :=
  fun x => if x == k then v else f x

/-- Python-dict insertion that keeps insertion order and overwrites an
existing key in place (used for `context["previous_research"][src] = ...`). -/
def dictInsert {α : Type} (m : List (String × α)) (k : String) (v : α) :
    List (String × α) :=
  if m.any (fun p => p.1 == k) then
    m.map (fun p => if p.1 == k then (k, v) else p)
  else m ++ [(k, v)]

/-- Model of `AgentHandoff` (collaboration.py).  `handoff_timestamp` is
abstracted away (never branched on by the coordinator). -/
structure AgentHandoff where
  source_agent : String
  target_agent : String
  research_files : List String
  context_summary : String
  cross_references : List String
  confidence_metrics : List (String × ℚ)
  token_usage : Nat
deriving DecidableEq, Repr

/-- Model of `AgentHandoff.validate_handoff_integrity`. -/
def AgentHandoff.validate_handoff_integrity (h : AgentHandoff) : Bool :=
  decide (0 < h.research_files.length) &&
  decide (100 < (pyStrip h.context_summary).length) &&
  (h.source_agent != h.target_agent)

/-- Model of `ResearchStatus` (collaboration.py); `started_at` is omitted
(a datetime never consulted by the coordinator or the claims). -/
structure ResearchStatus where
  session_id : String
  ticker : String
  current_agent : Option String
  agents_completed : List String
  agents_failed : List String
  progress_percentage : ℚ
  status : String
  error_message : Option String
  completed_at : Option Unit
deriving DecidableEq, Repr

/-- The payload dict passed to `coordinate_agent_handoff`.  All call sites
provide every key, so the `.get(key, default)` reads are total fields. -/
structure HandoffData where
  research_files : List String
  context_summary : String
  cross_references : List String
  confidence_metrics : List (String × ℚ)
  token_usage : Nat
deriving DecidableEq, Repr

/-- One entry of `context["previous_research"]` built by
`_build_agent_context` (the timestamp string is abstracted away). -/
structure PrevResearch where
  research_files : List String
  summary : String
  cross_references : List String
  confidence_metrics : List (String × ℚ)
  token_usage : Nat
deriving DecidableEq, Repr

/-- The context dict built by `AgentCoordinator._build_agent_context`. -/
structure AgentContext where
  session_id : String
  ticker : String
  requesting_agent : String
  previous_research : List (String × PrevResearch)
deriving DecidableEq, Repr

/-- Inputs of one agent execution (`_execute_real_agent` /
`_mock_agent_execution`); `context` is `some _` exactly for real agents,
which are the only ones that get a built context. -/
structure ExecCall where
  session_id : String
  agent_name : String
  ticker : String
  expertise_level : Nat
  context : Option AgentContext
deriving DecidableEq, Repr

/-- The sequential agent execution order (`self.agent_order`). -/
def agent_order : List String :=
  ["valuation_agent", "strategic_agent", "historian_agent", "synthesis_agent"]

/-- Which agents have a real implementation in `self.agents`
(only `ValuationAgent` exists; the rest are `None` and fall back to the
mock execution). -/
def agentImplemented (a : String) : Bool :=
  a == "valuation_agent"

/-- The `critical_agents` set of `handle_agent_failure` (all four agents). -/
def critical_agents : List String := agent_order

/-- Mutable state of an `AgentCoordinator` instance. -/
structure Coordinator where
  active_sessions : String → Option ResearchStatus
  session_handoffs : String → Option (List AgentHandoff)
  agent_retry_counts : String → Option (String → Option Nat)
  max_retries : Nat

/-- A status snapshot observable by `get_research_status` at a suspension
point (only the fields the invariant claims are about). -/
structure Obs where
  progress : ℚ
  completed : List String
  statusStr : String
  current : Option String
deriving DecidableEq, Repr

/-- The world the embedding threads through every operation: the
coordinator plus instrumentation (execution counter and traces). -/
structure WorldState where
  coord : Coordinator
  ncalls : Nat
  execTrace : List ExecCall
  sleepTrace : List Nat
  obsTrace : List Obs

/-- External nondeterminism: success flag of the n-th real-agent
execution (counted by `WorldState.ncalls`).  The text of a failed real
execution's error message is abstracted away: the coordinator only
threads it into the failure handler, which the theorems exercise through
`handle_agent_failure`'s explicit message argument (a result without a
message makes the loop fall back to `"Agent execution failed"`, which is
what the embedding uses). -/
structure Env where
  outcome : Nat → Bool

/-- Store a session's status back into the coordinator. -/
def setSession (st : WorldState) (session_id : String) (s : ResearchStatus) :
    WorldState :=
  { st with coord :=
      { st.coord with active_sessions := fupd st.coord.active_sessions session_id (some s) } }

/-- Record an observable snapshot of the session's status (no-op when the
session does not exist: there is nothing to observe). -/
def recordObs (st : WorldState) (session_id : String) : WorldState :=
  match st.coord.active_sessions session_id with
  | none => st
  | some s =>
      { st with obsTrace :=
          (st.obsTrace ++ [⟨s.progress_percentage, s.agents_completed, s.status, s.current_agent⟩]) }

/-- Retry count of `(session, agent)` as the code reads it (missing keys
behave as 0 after the `if ... not in ...` initialisation). -/
def getCount (c : Coordinator) (session_id agent_name : String) : Nat :=
  (((c.agent_retry_counts session_id).getD (fun _ => none)) agent_name).getD 0

/-- The two `if ... not in ...` initialisations at the top of
`handle_agent_failure`. -/
def ensureRetryEntry (c : Coordinator) (session_id agent_name : String) : Coordinator :=
  let inner := (c.agent_retry_counts session_id).getD (fun _ => none)
  let inner := if (inner agent_name).isSome then inner else fupd inner agent_name (some 0)
  { c with agent_retry_counts := fupd c.agent_retry_counts session_id (some inner) }

/-- `self.agent_retry_counts[session_id][agent_name] = n`. -/
def setCount (c : Coordinator) (session_id agent_name : String) (n : Nat) : Coordinator :=
  let inner := (c.agent_retry_counts session_id).getD (fun _ => none)
  { c with agent_retry_counts :=
      (fupd c.agent_retry_counts session_id (some (fupd inner agent_name (some n)))) }

/-- Model of `AgentCoordinator._build_agent_context`. -/
def build_agent_context (c : Coordinator) (session_id ticker current_agent : String) :
    AgentContext :=
  let hs := (c.session_handoffs session_id).getD []
  { session_id := session_id, ticker := ticker, requesting_agent := current_agent,
    previous_research :=
      (hs.foldl
        (fun m h => dictInsert m h.source_agent
          ⟨h.research_files, h.context_summary, h.cross_references,
           h.confidence_metrics, h.token_usage⟩) []) }

/-- One agent execution as the workflow or the retry path performs it:
`_execute_real_agent` for implemented agents (which first builds the
context and whose success/error come from the `Env` oracle), or
`_mock_agent_execution` for the unimplemented ones (always succeeds).
The execution is an `await`, so the session's state is observable here;
returns (state, success flag, error message of the result). -/
def executeAgent (env : Env) (st : WorldState) (session_id agent_name ticker : String)
    (expertise_level : Nat) : WorldState × Bool :=
  let ctx := if agentImplemented agent_name then
      some (build_agent_context st.coord session_id ticker agent_name) else none
  let st := recordObs st session_id
  let success := if agentImplemented agent_name then env.outcome st.ncalls else true
  ({ st with ncalls := st.ncalls + 1,
             execTrace :=
               (st.execTrace ++ [⟨session_id, agent_name, ticker, expertise_level, ctx⟩]) },
   success)

/-- The `AgentHandoff(...)` construction inside `coordinate_agent_handoff`. -/
def mkHandoff (source_agent target_agent : String) (data : HandoffData) : AgentHandoff :=
  { source_agent := source_agent, target_agent := target_agent,
    research_files := data.research_files,
    context_summary := data.context_summary,
    cross_references := data.cross_references,
    confidence_metrics := data.confidence_metrics,
    token_usage := data.token_usage }

/-- Model of `AgentCoordinator.coordinate_agent_handoff`.  Pydantic's
`max_length=5000` on `context_summary` makes the `AgentHandoff(...)`
construction raise for longer summaries; the surrounding `try` catches it
and returns `False` with nothing mutated.  The progress update
`(completed_agents / total_agents) * 100` is the exact rational
`mkRat (completed_agents * 100) total_agents` (both float operations are
exact for these operands). -/
def coordinate_agent_handoff (st : WorldState) (session_id source_agent target_agent : String)
    (data : HandoffData) : WorldState × Bool :=
  if 5000 < data.context_summary.length then (st, false)
  else
    let handoff := mkHandoff source_agent target_agent data
    if !handoff.validate_handoff_integrity then (st, false)
    else
      let c := st.coord
      let hs := (c.session_handoffs session_id).getD []
      let c := { c with session_handoffs :=
                  (fupd c.session_handoffs session_id (some (hs ++ [handoff]))) }
      let c :=
        match c.active_sessions session_id with
        | none => c
        | some s =>
            let completed := if s.agents_completed.contains source_agent then
                s.agents_completed else s.agents_completed ++ [source_agent]
            let s := { s with agents_completed := completed,
                              current_agent := some target_agent,
                              progress_percentage :=
                                (mkRat (completed.length * 100) agent_order.length) }
            { c with active_sessions := (fupd c.active_sessions session_id (some s)) }
      ({ st with coord := c }, true)

/-- Model of `AgentCoordinator._retry_agent`: re-executes the agent with
the session's stored ticker and with `expertise_level` hard-coded to 5
(the code's `# Default for now` branch assigns 5 in both cases). -/
def retry_agent (env : Env) (st : WorldState) (session_id agent_name : String) :
    WorldState × Bool :=
  match st.coord.active_sessions session_id with
  | none => (st, false)
  | some s =>
      executeAgent env st session_id agent_name s.ticker 5

/-- The backoff `await asyncio.sleep(delay)`: records the delay and the
observable state during the suspension. -/
def sleepBackoff (st : WorldState) (session_id : String) (delay : Nat) : WorldState :=
  recordObs { st with sleepTrace := st.sleepTrace ++ [delay] } session_id

/-- The tail of `handle_agent_failure` after the retry branch: add the
agent to `agents_failed` (idempotently), then fail the session if the
agent is critical (every agent is). -/
def handleFallthrough (st : WorldState) (session_id agent_name errMsg : String) :
    WorldState × Bool :=
  match st.coord.active_sessions session_id with
  | none => (st, false)
  | some s =>
      let s := if s.agents_failed.contains agent_name then s
               else { s with agents_failed := s.agents_failed ++ [agent_name] }
      if critical_agents.contains agent_name then
        let s := { s with status := "failed",
                          error_message :=
                            (some ("Critical agent " ++ agent_name ++ " failed after "
                              ++ toString st.coord.max_retries ++ " retries: " ++ errMsg)) }
        (setSession st session_id s, false)
      else
        (setSession st session_id s, true)

/-- Body of `handle_agent_failure`; the Python recursion
`return await self.handle_agent_failure(...)` re-enters the same body, so
it is modelled with a fuel parameter.  Each recursive call strictly
increments the stored retry count toward `max_retries`, so calling with
`fuel = max_retries` never exhausts the fuel (the fuel-0 arm repeats the
fall-through and is dead code for the actual entry point). -/
def hafGo (env : Env) : Nat → WorldState → String → String → String → WorldState × Bool
  | fuel, st, session_id, agent_name, errMsg =>
    match st.coord.active_sessions session_id with
    | none => (st, false)
    | some _ =>
        let st := { st with coord := ensureRetryEntry st.coord session_id agent_name }
        let retry_count := getCount st.coord session_id agent_name
        if retry_count < st.coord.max_retries then
          let st := { st with coord := setCount st.coord session_id agent_name (retry_count + 1) }
          let rc := retry_count + 1
          let delay := 2 ^ (rc - 1)
          let st := sleepBackoff st session_id delay
          let r := retry_agent env st session_id agent_name
          let st := r.1
          if r.2 then
            (match st.coord.active_sessions session_id with
             | none => (st, true)
             | some s =>
                 let s := if s.agents_failed.contains agent_name then
                     { s with agents_failed := s.agents_failed.erase agent_name } else s
                 (setSession st session_id s, true))
          else
            if rc < st.coord.max_retries then
              match fuel with
              | Nat.succ fuel => hafGo env fuel st session_id agent_name errMsg
              | 0 => handleFallthrough st session_id agent_name errMsg
            else handleFallthrough st session_id agent_name errMsg
        else handleFallthrough st session_id agent_name errMsg

/-- Model of `AgentCoordinator.handle_agent_failure`. -/
def handle_agent_failure (env : Env) (st : WorldState) (session_id agent_name errMsg : String) :
    WorldState × Bool :=
  hafGo env st.coord.max_retries st session_id agent_name errMsg

/-- The mock handoff payload the workflow loop builds for every
transition (`handoff_data` literal in `_execute_research_workflow`).
The float metrics 0.8/0.9 are represented exactly; they are never
branched on. -/
def mock_handoff_data (session_id ticker agent_name next_agent : String) : HandoffData :=
  { research_files :=
      ["research_database/sessions/" ++ session_id ++ "/" ++ ticker ++ "/"
        ++ pySplitHead agent_name ++ "/analysis_v1.md"],
    context_summary :=
      ("Completed comprehensive " ++ agent_name ++ " analysis for " ++ ticker
        ++ ". Key findings include detailed financial metrics, market positioning assessment, competitive analysis, and strategic recommendations. Analysis provides thorough foundation for "
        ++ next_agent ++ " to build upon with additional insights and specialized expertise."),
    cross_references := [],
    confidence_metrics := [("confidence", 4/5), ("completeness", 9/10)],
    token_usage := 1500 }

/-- The `for i, agent_name in enumerate(self.agent_order)` loop of
`_execute_research_workflow`.  Returns the state and whether the loop ran
to the end (`false` = early `return`: session vanished or critical
failure).  Note the loop calls `coordinate_agent_handoff` and discards
its boolean result, exactly as the source does. -/
def workflowLoop (env : Env) (session_id ticker : String) (expertise_level : Nat) :
    List (Nat × String) → WorldState → WorldState × Bool
  | [], st => (st, true)
  | (i, agent_name) :: rest, st =>
    match st.coord.active_sessions session_id with
    | none => (st, false)
    | some s =>
        let st := setSession st session_id { s with current_agent := some agent_name }
        let r := executeAgent env st session_id agent_name ticker expertise_level
        let st := r.1
        let fr : WorldState × Bool :=
          if r.2 then (st, true)
          else
            handle_agent_failure env st session_id agent_name "Agent execution failed" 
        if fr.2 then
          let st := fr.1
          let st :=
            if i + 1 < agent_order.length then
              let next_agent := agent_order.getD (i + 1) ""
              (coordinate_agent_handoff st session_id agent_name next_agent
                (mock_handoff_data session_id ticker agent_name next_agent)).1
            else st
          workflowLoop env session_id ticker expertise_level rest st
        else (fr.1, false)

/-- Model of `AgentCoordinator._execute_research_workflow`: the loop, then
(when the loop was not cut short) the completion block.  The end of the
background task is the final point at which the session's state becomes
(and stays) observable, so a final snapshot is recorded on every path. -/
def execute_research_workflow (env : Env) (st : WorldState) (session_id ticker : String)
    (expertise_level : Nat) : WorldState :=
  let r := workflowLoop env session_id ticker expertise_level agent_order.enum st
  let st :=
    if r.2 then
      match r.1.coord.active_sessions session_id with
      | none => r.1
      | some s =>
          setSession r.1 session_id
            { s with status := "completed", current_agent := none,
                     progress_percentage := 100, completed_at := some () }
    else r.1
  recordObs st session_id

/-- Model of `AgentCoordinator.start_research_process` (the part that runs
synchronously before the workflow task is scheduled; `expertise_level` is
only threaded into that task, here via `runResearch`). -/
def start_research_process (st : WorldState) (session_id ticker : String)
    (expertise_level : Nat) : WorldState :=
  let _ := expertise_level
  let s : ResearchStatus :=
    { session_id := session_id, ticker := ticker,
      current_agent := if agent_order.isEmpty then none else some (agent_order.headD ""),
      agents_completed := [], agents_failed := [],
      progress_percentage := 0, status := "active",
      error_message := none, completed_at := none }
  let c := { st.coord with
      active_sessions := (fupd st.coord.active_sessions session_id (some s)),
      session_handoffs := (fupd st.coord.session_handoffs session_id (some [])),
      agent_retry_counts := (fupd st.coord.agent_retry_counts session_id (some (fun _ => none))) }
  recordObs { st with coord := c } session_id

/-- Model of `AgentCoordinator.get_session_handoffs` (the dict dump of the
records is abstracted to the records themselves). -/
def get_session_handoffs (st : WorldState) (session_id : String) : List AgentHandoff :=
  (st.coord.session_handoffs session_id).getD []

/-- Model of `AgentCoordinator.cleanup_session`. -/
def cleanup_session (st : WorldState) (session_id : String) : WorldState :=
  { st with coord := { st.coord with
      active_sessions := (fupd st.coord.active_sessions session_id none),
      session_handoffs := (fupd st.coord.session_handoffs session_id none),
      agent_retry_counts := (fupd st.coord.agent_retry_counts session_id none) } }

/-- A fresh coordinator (`AgentCoordinator.__init__`):
`max_retries = 3 if enable_retries else 0`. -/
def initialState (enable_retries : Bool) : WorldState :=
  { coord :=
      { active_sessions := fun _ => none, session_handoffs := fun _ => none,
        agent_retry_counts := fun _ => none,
        max_retries := if enable_retries then 3 else 0 },
    ncalls := 0, execTrace := [], sleepTrace := [], obsTrace := [] }

/-- Start a session on a fresh coordinator and run its workflow task to
completion (cooperative scheduling: the task runs uninterrupted except at
its recorded suspension points). -/
def runResearch (env : Env) (enable_retries : Bool) (session_id ticker : String)
    (expertise_level : Nat) : WorldState :=
  let st := start_research_process (initialState enable_retries) session_id ticker expertise_level
  execute_research_workflow env st session_id ticker expertise_level

/-- Environment in which every real-agent execution succeeds. -/
def envAllTrue : Env := ⟨fun _ => true⟩

/-- Environment in which every real-agent execution fails (with a result
carrying no error message, so the loop substitutes its default). -/
def envAllFalse : Env := ⟨fun _ => false⟩

/-- Environment in which the first real-agent execution fails and every
later one succeeds. -/
def envRecover : Env := ⟨fun n => decide (0 < n)⟩

/-- Success of the n-th execution of a given agent as the coordinator sees
it: real agents consult the oracle, mocked agents always succeed. -/
def envOutcomeFor (env : Env) (agent_name : String) (n : Nat) : Bool :=
  if agentImplemented agent_name then env.outcome n else true

/-- A ticker long enough that every mock handoff summary built from it
exceeds pydantic's 5000-character bound, making every
`coordinate_agent_handoff` call of the workflow loop return `False`. -/
def bigTicker : String := String.mk (List.replicate 5000 'A')

/-! ### The observable status traces of `runResearch`, by oracle branch

Only the first agent has a real implementation, so a run of the workflow
consults the oracle at the indices 0, 1, 2, 3 at most, and the observable
trace is determined by which of them (if any) is the first `true`. -/

/-- The status snapshot before the first agent has produced anything. -/
def obsInit : Obs := ⟨0, [], "active", some "valuation_agent"⟩

/-- The snapshots from the first handoff onwards in a run in which the
valuation agent eventually succeeded. -/
def obsHappyTail : List Obs :=
  [⟨25, ["valuation_agent"], "active", some "strategic_agent"⟩,
   ⟨50, ["valuation_agent", "strategic_agent"], "active", some "historian_agent"⟩,
   ⟨75, ["valuation_agent", "strategic_agent", "historian_agent"], "active",
     some "synthesis_agent"⟩,
   ⟨100, ["valuation_agent", "strategic_agent", "historian_agent"], "completed", none⟩]

/-- Observable trace of a run whose first agent fails `k` times and then
succeeds (each failed attempt adds a backoff sleep and a retry execution,
two further suspension points). -/
def obsBranch (k : Nat) : List Obs :=
  List.replicate (2 + 2 * k) obsInit ++ obsHappyTail

/-- Observable trace of a run whose first agent fails all four attempts. -/
def obsFailedTrace : List Obs :=
  List.replicate 8 obsInit ++ [⟨0, [], "failed", some "valuation_agent"⟩]

/-- A fresh coordinator (retries enabled) on which `"sess-1"`/`"AAPL"` has
just been started: the state every workflow-task step begins from. -/
def stPost3 : WorldState :=
  start_research_process (initialState true) "sess-1" "AAPL" 5

/-- The same started session on a coordinator with retries disabled
(`max_retries = 0`). -/
def stPost0 : WorldState :=
  start_research_process (initialState false) "sess-1" "AAPL" 5

/-- The Research Status exactly as `start_research_process` initialises it
for `"sess-1"`/`"AAPL"`. -/
def sInit : ResearchStatus :=
  ⟨"sess-1", "AAPL", some "valuation_agent", [], [], 0, "active", none, none⟩

/-- The Research Status exactly as `start_research_process` initialises it
for a session on the adversarial ticker. -/
def sInitBig : ResearchStatus :=
  ⟨"sess-2", bigTicker, some "valuation_agent", [], [], 0, "active", none, none⟩

/-- The coordinator state after starting `"sess-2"` on the adversarial
ticker. -/
def stPostBig : WorldState :=
  start_research_process (initialState true) "sess-2" bigTicker 5

/-- A handoff payload whose summary is far below the 100-character bound. -/
def shortData : HandoffData :=
  { research_files := ["valuation/analysis_v1.md"],
    context_summary := "Too short summary",
    cross_references := [], confidence_metrics := [], token_usage := 1500 }

/-- A handoff payload that passes validation (the loop's own mock payload
for the first transition). -/
def validData : HandoffData :=
  mock_handoff_data "sess-1" "AAPL" "valuation_agent" "strategic_agent"

/-- The state after a completed research run for `"sess-1"` followed by
`cleanup_session "sess-1"`: the session is absent from every map. -/
def stCleaned : WorldState :=
  cleanup_session (runResearch envAllTrue true "sess-1" "AAPL" 5) "sess-1"

/-! ### Generic helper lemmas -/

/-- Rewrite an oracle so that its (propositionally known) value at one
point appears syntactically, letting the runs reduce definitionally. -/
theorem pinFun (f : Nat → Bool) (k : Nat) (b : Bool) (h : f k = b) :
    f = fun n => if n == k then b else f n := by
  funext n
  by_cases hn : n = k
  · subst hn; simp [h]
  · simp [hn]


theorem obsTrace_T (f : Nat → Bool) (h0 : f 0 = true) :
    (runResearch ⟨f⟩ true "sess-1" "AAPL" 5).obsTrace = obsBranch 0 := by
  rw [pinFun f 0 true h0]
  rfl

theorem obsTrace_FT (f : Nat → Bool) (h0 : f 0 = false)
    (h1 : f 1 = true) :
    (runResearch ⟨f⟩ true "sess-1" "AAPL" 5).obsTrace = obsBranch 1 := by
  rw [pinFun f 0 false h0, pinFun f 1 true h1]
  rfl

theorem obsTrace_FFT (f : Nat → Bool) (h0 : f 0 = false)
    (h1 : f 1 = false) (h2 : f 2 = true) :
    (runResearch ⟨f⟩ true "sess-1" "AAPL" 5).obsTrace = obsBranch 2 := by
  rw [pinFun f 0 false h0, pinFun f 1 false h1, pinFun f 2 true h2]
  rfl

theorem obsTrace_FFFT (f : Nat → Bool) (h0 : f 0 = false)
    (h1 : f 1 = false) (h2 : f 2 = false) (h3 : f 3 = true) :
    (runResearch ⟨f⟩ true "sess-1" "AAPL" 5).obsTrace = obsBranch 3 := by
  rw [pinFun f 0 false h0, pinFun f 1 false h1, pinFun f 2 false h2, pinFun f 3 true h3]
  rfl

theorem obsTrace_FFFF (f : Nat → Bool) (h0 : f 0 = false)
    (h1 : f 1 = false) (h2 : f 2 = false) (h3 : f 3 = false) :
    (runResearch ⟨f⟩ true "sess-1" "AAPL" 5).obsTrace = obsFailedTrace := by
  rw [pinFun f 0 false h0, pinFun f 1 false h1, pinFun f 2 false h2, pinFun f 3 false h3]
  rfl

/-! ### Claim theorems -/

/-- C1 (counterexample): in a run in which every agent execution succeeds,
the final `agents_completed` is `[valuation, strategic, historian]` — it
does NOT equal the full fixed order, because the loop performs no handoff
after the last agent and `agents_completed` only ever gains the *source*
of a committed handoff, so `synthesis_agent` is never appended. -/
theorem C1_counterexample :
    ((runResearch envAllTrue true "sess-1" "AAPL" 5).coord.active_sessions "sess-1").map
        ResearchStatus.agents_completed
      = some ["valuation_agent", "strategic_agent", "historian_agent"] ∧
    some ["valuation_agent", "strategic_agent", "historian_agent"] ≠ some agent_order := by
  constructor
  · rfl
  · decide

/-- C1 (amended): for a session started via `start_research_process` in
which every agent execution succeeds, after the workflow loop finishes the
status is `completed`, `progress_percentage` is 100, `agents_completed` is
`[valuation, strategic, historian]` (the first three agents of the fixed
order, in order; the last agent is never appended because no handoff
follows it), `current_agent` is `none`, `completed_at` is set, no agent
failed, no error is recorded, and `get_session_handoffs` returns exactly
3 records, one per transition. -/
theorem C1_amended_happy_path (env : Env) (h : ∀ n, env.outcome n = true) :
    (runResearch env true "sess-1" "AAPL" 5).coord.active_sessions "sess-1"
      = some { session_id := "sess-1", ticker := "AAPL", current_agent := none,
               agents_completed := ["valuation_agent", "strategic_agent", "historian_agent"],
               agents_failed := [], progress_percentage := 100, status := "completed",
               error_message := none, completed_at := some () } ∧
    (get_session_handoffs (runResearch env true "sess-1" "AAPL" 5) "sess-1").map
        (fun hf => (hf.source_agent, hf.target_agent))
      = [("valuation_agent", "strategic_agent"), ("strategic_agent", "historian_agent"),
         ("historian_agent", "synthesis_agent")] := by
  obtain ⟨f⟩ := env
  have hf : f = fun _ => true := funext fun n => h n
  rw [hf]
  exact ⟨rfl, rfl⟩

/-- C1 (witness): the amended theorem applied to the all-successful
environment. -/
theorem C1_amended_happy_path_witness :
    (runResearch envAllTrue true "sess-1" "AAPL" 5).coord.active_sessions "sess-1"
      = some { session_id := "sess-1", ticker := "AAPL", current_agent := none,
               agents_completed := ["valuation_agent", "strategic_agent", "historian_agent"],
               agents_failed := [], progress_percentage := 100, status := "completed",
               error_message := none, completed_at := some () } ∧
    (get_session_handoffs (runResearch envAllTrue true "sess-1" "AAPL" 5) "sess-1").map
        (fun hf => (hf.source_agent, hf.target_agent))
      = [("valuation_agent", "strategic_agent"), ("strategic_agent", "historian_agent"),
         ("historian_agent", "synthesis_agent")] :=
  C1_amended_happy_path envAllTrue (fun _ => rfl)

/-- C3 (counterexample): the terminal snapshot of a fully successful run
is an observation point with `progress_percentage = 100` while
`agents_completed` has 3 elements, and `100 ≠ 100·3/4`; so progress does
not equal `100·|agents_completed|/4` at every observation point. -/
theorem C3_counterexample :
    (⟨100, ["valuation_agent", "strategic_agent", "historian_agent"], "completed", none⟩ : Obs)
        ∈ (runResearch envAllTrue true "sess-1" "AAPL" 5).obsTrace ∧
    (100 : ℚ) ≠ mkRat (100 * 3) 4 := by decide

/-- C3 (amended): for every environment (any pattern of agent successes
and failures), over the whole workflow of a session the observable
`progress_percentage` is non-decreasing, at every observation point whose
status is not `completed` it equals the exact rational `100·|agents_completed|/4`
(written `mkRat (100·|agents_completed|) 4`), and at `completed`
observation points it is the directly assigned 100 (with 3 completed
agents, not 4). -/
theorem C3_amended_progress (env : Env) :
    List.Sorted (· ≤ ·)
      ((runResearch env true "sess-1" "AAPL" 5).obsTrace.map Obs.progress) ∧
    ∀ o ∈ (runResearch env true "sess-1" "AAPL" 5).obsTrace,
      (o.statusStr ≠ "completed" → o.progress = mkRat (100 * o.completed.length) 4) ∧
      (o.statusStr = "completed" → o.progress = 100) := by
  obtain ⟨f⟩ := env
  cases h0 : f 0
  · cases h1 : f 1
    · cases h2 : f 2
      · cases h3 : f 3
        · rw [obsTrace_FFFF f h0 h1 h2 h3]; decide
        · rw [obsTrace_FFFT f h0 h1 h2 h3]; decide
      · rw [obsTrace_FFT f h0 h1 h2]; decide
    · rw [obsTrace_FT f h0 h1]; decide
  · rw [obsTrace_T f h0]; decide

/-- C3 (witness): the amended theorem applied to the all-successful
environment, evaluated at the first post-handoff observation. -/
theorem C3_amended_progress_witness :
    (⟨25, ["valuation_agent"], "active", some "strategic_agent"⟩ : Obs).progress
      = mkRat (100 * 1) 4 :=
  (((C3_amended_progress envAllTrue).2
      ⟨25, ["valuation_agent"], "active", some "strategic_agent"⟩ (by decide)).1 (by decide))

/-- C7 (counterexample): when the first agent exhausts its retries the
session's status becomes `failed` while `current_agent` is still the
failed agent, not `null`; the claimed iff fails in every `failed` state. -/
theorem C7_counterexample :
    ((runResearch envAllFalse true "sess-1" "AAPL" 5).coord.active_sessions "sess-1").map
        (fun s => (s.status, s.current_agent))
      = some ("failed", some "valuation_agent") ∧
    (some "valuation_agent" : Option String) ≠ none := by decide

/-- C7 (amended): at every observation point of a session's workflow,
`current_agent` is null exactly when the status is `completed`; in
`active` states it holds the agent being run (or awaited), and in the
`failed` state it keeps pointing at the failed agent — the code never
clears it on failure. -/
theorem C7_amended_current_agent (env : Env) :
    ∀ o ∈ (runResearch env true "sess-1" "AAPL" 5).obsTrace,
      (o.current = none ↔ o.statusStr = "completed") := by
  obtain ⟨f⟩ := env
  cases h0 : f 0
  · cases h1 : f 1
    · cases h2 : f 2
      · cases h3 : f 3
        · rw [obsTrace_FFFF f h0 h1 h2 h3]; decide
        · rw [obsTrace_FFFT f h0 h1 h2 h3]; decide
      · rw [obsTrace_FFT f h0 h1 h2]; decide
    · rw [obsTrace_FT f h0 h1]; decide
  · rw [obsTrace_T f h0]; decide

/-- C7 (witness): the amended theorem applied to the all-successful
environment at the terminal observation. -/
theorem C7_amended_current_agent_witness :
    ((⟨100, ["valuation_agent", "strategic_agent", "historian_agent"], "completed", none⟩ :
        Obs).current = none)
      ↔ ((⟨100, ["valuation_agent", "strategic_agent", "historian_agent"], "completed", none⟩ :
        Obs).statusStr = "completed") :=
  C7_amended_current_agent envAllTrue
    ⟨100, ["valuation_agent", "strategic_agent", "historian_agent"], "completed", none⟩
    (by decide)

/-- C8 (confirmed): for every environment (any pattern of agent successes
and failures), at every observation point of the session's workflow the
list `agents_completed` is a prefix of the fixed order
`[valuation, strategic, historian, synthesis]` — in order, without skips
or duplicates. -/
theorem C8_completed_prefix (env : Env) :
    ∀ o ∈ (runResearch env true "sess-1" "AAPL" 5).obsTrace,
      List.isPrefixOf o.completed agent_order = true := by
  obtain ⟨f⟩ := env
  cases h0 : f 0
  · cases h1 : f 1
    · cases h2 : f 2
      · cases h3 : f 3
        · rw [obsTrace_FFFF f h0 h1 h2 h3]; decide
        · rw [obsTrace_FFFT f h0 h1 h2 h3]; decide
      · rw [obsTrace_FFT f h0 h1 h2]; decide
    · rw [obsTrace_FT f h0 h1]; decide
  · rw [obsTrace_T f h0]; decide

/-- C8 (witness): the theorem applied to the all-successful environment at
the observation after the second handoff. -/
theorem C8_completed_prefix_witness :
    List.isPrefixOf
      ((⟨50, ["valuation_agent", "strategic_agent"], "active", some "historian_agent"⟩ :
        Obs).completed) agent_order = true :=
  C8_completed_prefix envAllTrue
    ⟨50, ["valuation_agent", "strategic_agent"], "active", some "historian_agent"⟩
    (by decide)

/-- Length of the adversarial ticker, computed by rewriting (the 5000
character list is never traversed). -/
theorem bigTicker_len : bigTicker.length = 5000 := by
  show (List.replicate 5000 'A').length = 5000
  exact List.length_replicate 5000 'A'

/-- Every mock handoff summary built from `bigTicker` exceeds pydantic's
5000-character bound on `context_summary`. -/
theorem mock_summary_long (sid a b : String) :
    5000 < (mock_handoff_data sid bigTicker a b).context_summary.length := by
  have hpos :
      0 < (" to build upon with additional insights and specialized expertise." :
        String).length := by decide
  simp only [mock_handoff_data, String.length_append, bigTicker_len]
  omega

/-- With `bigTicker`, every handoff commit the workflow loop attempts
returns failure and leaves the state untouched. -/
theorem handoff_big_fails (st : WorldState) (sid a b : String) :
    coordinate_agent_handoff st sid a b (mock_handoff_data sid bigTicker a b) = (st, false) := by
  simp only [coordinate_agent_handoff]
  rw [if_pos (mock_summary_long sid a b)]

/-- The enumerated agent order, precomputed. -/
theorem agent_order_enum_eq :
    agent_order.enum = [(0, "valuation_agent"), (1, "strategic_agent"), (2, "historian_agent"),
      (3, "synthesis_agent")] := by decide

/-- The number of agents in the fixed order. -/
theorem agent_order_len : agent_order.length = 4 := rfl

/-- Successor lookups in the fixed order. -/
theorem agent_order_g1 : agent_order.getD 1 "" = "strategic_agent" := rfl

/-- Successor lookup for the third agent. -/
theorem agent_order_g2 : agent_order.getD 2 "" = "historian_agent" := rfl

/-- Successor lookup for the last agent. -/
theorem agent_order_g3 : agent_order.getD 3 "" = "synthesis_agent" := rfl

/-- C2 (code_bug, the code evaluated at the failing input): with a ticker of
5000 characters every mock handoff summary exceeds pydantic's 5000-character
bound, so each `coordinate_agent_handoff` call the workflow loop makes
returns `False` and stores nothing (first conjunct, for every state).  The
loop discards that result (line 320 of agent_coordinator.py): the second
conjunct shows that from the started session, after the first agent
succeeds, the loop proceeds directly to the remaining agents carrying the
post-execution state unchanged — the failed commit is silently skipped, no
failure handling, retry or backoff happens, and no handoff is stored —
instead of re-entering failure handling for the agent as the claim states. -/
theorem C2_handoff_failure_ignored :
    (∀ (st : WorldState) (sid a b : String),
      coordinate_agent_handoff st sid a b (mock_handoff_data sid bigTicker a b)
        = (st, false)) ∧
    (∀ rest : List (Nat × String),
      workflowLoop envAllTrue "sess-2" bigTicker 5 ((0, "valuation_agent") :: rest) stPostBig
        = workflowLoop envAllTrue "sess-2" bigTicker 5 rest
            ((executeAgent envAllTrue
              (setSession stPostBig "sess-2" { sInitBig with current_agent := some "valuation_agent" })
              "sess-2" "valuation_agent" bigTicker 5).1)) := by
  refine ⟨handoff_big_fails, fun rest => ?_⟩
  have hP : stPostBig.coord.active_sessions "sess-2" = some sInitBig := rfl
  have hE :
      (executeAgent envAllTrue
        (setSession stPostBig "sess-2" { sInitBig with current_agent := some "valuation_agent" })
        "sess-2" "valuation_agent" bigTicker 5).2 = true := rfl
  rw [workflowLoop, hP]
  simp only [hE, if_true, agent_order_len, handoff_big_fails]
  rw [if_pos (show 0 + 1 < 4 by norm_num)]

/-- C4 (confirmed): a handoff whose payload has an empty research-file
list, or whose stripped summary is at most 100 characters, or whose
source equals its target, makes `coordinate_agent_handoff` return failure
and leave the entire coordinator state — handoff list and Research Status
included — unchanged. -/
theorem C4_validation_rejects (st : WorldState)
    (session_id source_agent target_agent : String) (data : HandoffData)
    (h : data.research_files = [] ∨ (pyStrip data.context_summary).length ≤ 100 ∨
         source_agent = target_agent) :
    coordinate_agent_handoff st session_id source_agent target_agent data = (st, false) := by
  have hv : (mkHandoff source_agent target_agent data).validate_handoff_integrity = false := by
    simp only [AgentHandoff.validate_handoff_integrity, mkHandoff]
    rcases h with h | h | h
    · simp [h]
    · simp [Nat.not_lt.mpr h]
    · simp [h]
  simp only [coordinate_agent_handoff]
  by_cases h5 : 5000 < data.context_summary.length
  · rw [if_pos h5]
  · rw [if_neg h5, hv]
    rfl

/-- C4 (witness): the theorem applied to a 17-character summary on the
freshly started session. -/
theorem C4_validation_rejects_witness :
    coordinate_agent_handoff stPost3 "sess-1" "valuation_agent" "strategic_agent" shortData
      = (stPost3, false) :=
  C4_validation_rejects stPost3 "sess-1" "valuation_agent" "strategic_agent" shortData
    (Or.inr (Or.inl (by decide)))

/-- C5 (confirmed): with retry budget 3 and an agent failing on every
attempt, `handle_agent_failure` returns `false` with the stored retry
count at 3, sets the session's status to `failed` with an error message
naming the agent and the retry count, appends the agent to
`agents_failed` exactly once, and sleeps the backoff delays 1, 2, 4
(2^(k-1) before retry attempt k); with retry budget 0 the very first
failure immediately fails the session with no backoff sleep at all. -/
theorem C5_retry_exhaustion (env : Env) (h : ∀ n, env.outcome n = false) :
    (handle_agent_failure env stPost3 "sess-1" "valuation_agent" "boom").2 = false ∧
    getCount (handle_agent_failure env stPost3 "sess-1" "valuation_agent" "boom").1.coord
        "sess-1" "valuation_agent" = 3 ∧
    ((handle_agent_failure env stPost3 "sess-1" "valuation_agent" "boom").1.coord.active_sessions
        "sess-1").map (fun s => (s.status, s.error_message, s.agents_failed))
      = some ("failed", some "Critical agent valuation_agent failed after 3 retries: boom",
          ["valuation_agent"]) ∧
    (handle_agent_failure env stPost3 "sess-1" "valuation_agent" "boom").1.sleepTrace
      = [1, 2, 4] ∧
    (handle_agent_failure env stPost0 "sess-1" "valuation_agent" "boom").2 = false ∧
    ((handle_agent_failure env stPost0 "sess-1" "valuation_agent" "boom").1.coord.active_sessions
        "sess-1").map (fun s => (s.status, s.error_message))
      = some ("failed", some "Critical agent valuation_agent failed after 0 retries: boom") ∧
    (handle_agent_failure env stPost0 "sess-1" "valuation_agent" "boom").1.sleepTrace = [] := by
  obtain ⟨f⟩ := env
  rw [show f = fun _ => false from funext fun n => h n]
  exact ⟨rfl, rfl, rfl, rfl, rfl, rfl, rfl⟩

/-- C5 (witness): the theorem applied to the always-failing environment. -/
theorem C5_retry_exhaustion_witness :
    (handle_agent_failure envAllFalse stPost3 "sess-1" "valuation_agent" "boom").2 = false ∧
    getCount (handle_agent_failure envAllFalse stPost3 "sess-1" "valuation_agent" "boom").1.coord
        "sess-1" "valuation_agent" = 3 ∧
    ((handle_agent_failure envAllFalse stPost3 "sess-1"
        "valuation_agent" "boom").1.coord.active_sessions
        "sess-1").map (fun s => (s.status, s.error_message, s.agents_failed))
      = some ("failed", some "Critical agent valuation_agent failed after 3 retries: boom",
          ["valuation_agent"]) ∧
    (handle_agent_failure envAllFalse stPost3 "sess-1" "valuation_agent" "boom").1.sleepTrace
      = [1, 2, 4] ∧
    (handle_agent_failure envAllFalse stPost0 "sess-1" "valuation_agent" "boom").2 = false ∧
    ((handle_agent_failure envAllFalse stPost0 "sess-1"
        "valuation_agent" "boom").1.coord.active_sessions
        "sess-1").map (fun s => (s.status, s.error_message))
      = some ("failed", some "Critical agent valuation_agent failed after 0 retries: boom") ∧
    (handle_agent_failure envAllFalse stPost0 "sess-1" "valuation_agent" "boom").1.sleepTrace
      = [] :=
  C5_retry_exhaustion envAllFalse (fun _ => rfl)

/-- C6 (counterexample): start a session with expertise level 7 in an
environment where the first execution fails and the retry succeeds; the
original attempt runs with expertise level 7 but the retry runs with the
hard-coded 5 — not the same inputs as the original attempt. -/
theorem C6_counterexample :
    (runResearch envRecover true "sess-1" "AAPL" 7).execTrace.map
        (fun c => (c.agent_name, c.expertise_level))
      = [("valuation_agent", 7), ("valuation_agent", 5), ("strategic_agent", 7),
         ("historian_agent", 7), ("synthesis_agent", 7)] ∧
    (5 : Nat) ≠ 7 := by
  exact ⟨rfl, by decide⟩

/-- C6 (amended): every retry performed by the failure handler re-executes
the failed agent with the same session id, the ticker stored in the
session's status (which the workflow never changes), the context rebuilt
from the session's accumulated handoffs — but with the expertise level
hard-coded to 5 (`# Default for now` in `_retry_agent`) instead of the
level of the original attempt. -/
theorem C6_amended_retry_inputs (env : Env) (st : WorldState)
    (session_id agent_name : String) (s : ResearchStatus)
    (hs : st.coord.active_sessions session_id = some s) :
    (retry_agent env st session_id agent_name).1.execTrace
      = st.execTrace ++
        [⟨session_id, agent_name, s.ticker, 5,
          if agentImplemented agent_name then
            some (build_agent_context st.coord session_id s.ticker agent_name)
          else none⟩] := by
  simp [retry_agent, executeAgent, recordObs, hs]

/-- C6 (witness): the amended theorem applied to a retry of the valuation
agent on the freshly started session. -/
theorem C6_amended_retry_inputs_witness :
    (retry_agent envAllTrue stPost3 "sess-1" "valuation_agent").1.execTrace
      = stPost3.execTrace ++
        [⟨"sess-1", "valuation_agent", sInit.ticker, 5,
          if agentImplemented "valuation_agent" then
            some (build_agent_context stPost3.coord "sess-1" sInit.ticker "valuation_agent")
          else none⟩] :=
  C6_amended_retry_inputs envAllTrue stPost3 "sess-1" "valuation_agent" sInit rfl

/-- C10 (confirmed): for a session id absent from both the
active-sessions and the session-handoffs maps (never started, or removed
by `cleanup_session`), `coordinate_agent_handoff` with data that passes
validation still returns `true`, creates a fresh handoff-list entry for
that id holding exactly the new record, and changes no Research Status
(the active-sessions map is untouched); the residual record is observable
through `get_session_handoffs`. -/
theorem C10_handoff_unknown_session (st : WorldState)
    (session_id source_agent target_agent : String) (data : HandoffData)
    (hact : st.coord.active_sessions session_id = none)
    (hhs : st.coord.session_handoffs session_id = none)
    (hlen : data.context_summary.length ≤ 5000)
    (hval : (mkHandoff source_agent target_agent data).validate_handoff_integrity = true) :
    (coordinate_agent_handoff st session_id source_agent target_agent data).2 = true ∧
    get_session_handoffs
        (coordinate_agent_handoff st session_id source_agent target_agent data).1 session_id
      = [mkHandoff source_agent target_agent data] ∧
    (coordinate_agent_handoff st session_id source_agent target_agent data).1.coord.active_sessions
      = st.coord.active_sessions := by
  simp only [coordinate_agent_handoff, get_session_handoffs]
  rw [if_neg (Nat.not_lt.mpr hlen), hval]
  simp [hact, hhs, fupd]

/-- C10 (witness): after completing and cleaning up session `"sess-1"`, a
valid handoff for the same id succeeds and leaves an observable record
behind while the session stays absent from the status map. -/
theorem C10_handoff_unknown_session_witness :
    (coordinate_agent_handoff stCleaned "sess-1" "valuation_agent" "strategic_agent"
        validData).2 = true ∧
    get_session_handoffs
        (coordinate_agent_handoff stCleaned "sess-1" "valuation_agent" "strategic_agent"
          validData).1 "sess-1"
      = [mkHandoff "valuation_agent" "strategic_agent" validData] ∧
    (coordinate_agent_handoff stCleaned "sess-1" "valuation_agent" "strategic_agent"
        validData).1.coord.active_sessions
      = stCleaned.coord.active_sessions :=
  C10_handoff_unknown_session stCleaned "sess-1" "valuation_agent" "strategic_agent" validData
    rfl rfl (by decide) (by decide)


/-! ### Plumbing lemmas for the failure handler -/

theorem fupd_self {α : Type} (f : String → Option α) (k : String) (v : Option α) :
    fupd f k v k = v := by
  simp [fupd]

theorem recordObs_coord (st : WorldState) (sid : String) :
    (recordObs st sid).coord = st.coord := by
  unfold recordObs
  cases st.coord.active_sessions sid <;> rfl

theorem recordObs_ncalls (st : WorldState) (sid : String) :
    (recordObs st sid).ncalls = st.ncalls := by
  unfold recordObs
  cases st.coord.active_sessions sid <;> rfl

theorem recordObs_execTrace (st : WorldState) (sid : String) :
    (recordObs st sid).execTrace = st.execTrace := by
  unfold recordObs
  cases st.coord.active_sessions sid <;> rfl

theorem executeAgent_coord (env : Env) (st : WorldState) (sid a t : String) (e : Nat) :
    (executeAgent env st sid a t e).1.coord = st.coord := by
  unfold executeAgent
  simp [recordObs_coord]

theorem executeAgent_ncalls (env : Env) (st : WorldState) (sid a t : String) (e : Nat) :
    (executeAgent env st sid a t e).1.ncalls = st.ncalls + 1 := by
  unfold executeAgent
  simp [recordObs_ncalls]

theorem executeAgent_success (env : Env) (st : WorldState) (sid a t : String) (e : Nat) :
    (executeAgent env st sid a t e).2 = envOutcomeFor env a st.ncalls := by
  unfold executeAgent envOutcomeFor
  simp [recordObs_ncalls]

theorem retry_agent_of_some (env : Env) (st : WorldState) (sid a : String)
    (s : ResearchStatus) (hs : st.coord.active_sessions sid = some s) :
    retry_agent env st sid a = executeAgent env st sid a s.ticker 5 := by
  unfold retry_agent
  rw [hs]

theorem getCount_ensureRetryEntry (c : Coordinator) (sid a : String) :
    getCount (ensureRetryEntry c sid a) sid a = getCount c sid a := by
  unfold getCount ensureRetryEntry
  cases h : ((c.agent_retry_counts sid).getD (fun _ => none)) a <;>
    simp [h, fupd_self, fupd]

theorem getCount_setCount (c : Coordinator) (sid a : String) (n : Nat) :
    getCount (setCount c sid a n) sid a = n := by
  unfold getCount setCount
  simp [fupd_self]

theorem sessions_ensureRetryEntry (c : Coordinator) (sid a : String) :
    (ensureRetryEntry c sid a).active_sessions = c.active_sessions := rfl

theorem sessions_setCount (c : Coordinator) (sid a : String) (n : Nat) :
    (setCount c sid a n).active_sessions = c.active_sessions := rfl

theorem max_ensureRetryEntry (c : Coordinator) (sid a : String) :
    (ensureRetryEntry c sid a).max_retries = c.max_retries := rfl

theorem max_setCount (c : Coordinator) (sid a : String) (n : Nat) :
    (setCount c sid a n).max_retries = c.max_retries := rfl

theorem sleepBackoff_coord (st : WorldState) (sid : String) (d : Nat) :
    (sleepBackoff st sid d).coord = st.coord := by
  unfold sleepBackoff
  rw [recordObs_coord]

theorem sleepBackoff_ncalls (st : WorldState) (sid : String) (d : Nat) :
    (sleepBackoff st sid d).ncalls = st.ncalls := by
  unfold sleepBackoff
  rw [recordObs_ncalls]

/-- Core of the recovery analysis: starting `hafGo` with enough fuel, a
session whose status is `s`, and an oracle under which the next `j` retry
executions of the agent fail and the one after succeeds (all within the
retry budget), the handler reports recovery and the only change to the
session's status is that the agent is removed from `agents_failed` if
present. -/
theorem hafGo_recover (env : Env) (session_id agent_name errMsg : String) :
    ∀ (j fuel : Nat) (st : WorldState) (s : ResearchStatus),
      st.coord.active_sessions session_id = some s →
      getCount st.coord session_id agent_name + j < st.coord.max_retries →
      st.coord.max_retries ≤ fuel + getCount st.coord session_id agent_name →
      (∀ i, i < j → envOutcomeFor env agent_name (st.ncalls + i) = false) →
      envOutcomeFor env agent_name (st.ncalls + j) = true →
      (hafGo env fuel st session_id agent_name errMsg).2 = true ∧
      (hafGo env fuel st session_id agent_name errMsg).1.coord.active_sessions session_id
        = some { s with agents_failed := s.agents_failed.erase agent_name } := by
  intro j
  induction j with
  | zero =>
    intro fuel st s hs hj hfuel hfail hsucc
    cases fuel with
    | zero => exact absurd hj (by omega)
    | succ fuel =>
      have hlt : getCount st.coord session_id agent_name < st.coord.max_retries := by omega
      have hf0 : envOutcomeFor env agent_name st.ncalls = true := by simpa using hsucc
      rw [hafGo]
      simp only [hs, getCount_ensureRetryEntry, max_ensureRetryEntry, eq_true hlt, ite_true]
      rw [retry_agent_of_some env _ session_id agent_name s
        (by simp only [sleepBackoff_coord, sessions_setCount, sessions_ensureRetryEntry, hs])]
      rw [executeAgent_success]
      simp only [sleepBackoff_ncalls, hf0, ite_true, executeAgent_coord, sleepBackoff_coord,
        sessions_setCount, sessions_ensureRetryEntry, hs, setSession, fupd_self]
      refine ⟨trivial, ?_⟩
      by_cases hc : s.agents_failed.contains agent_name = true
      · rw [if_pos hc]
      · rw [if_neg hc]
        have hmem : agent_name ∉ s.agents_failed := by simpa using hc
        rw [List.erase_of_not_mem hmem]
  | succ j ih =>
    intro fuel st s hs hj hfuel hfail hsucc
    cases fuel with
    | zero => exact absurd hj (by omega)
    | succ fuel =>
      have hlt : getCount st.coord session_id agent_name < st.coord.max_retries := by omega
      have hlt2 : getCount st.coord session_id agent_name + 1 < st.coord.max_retries := by
        omega
      have hf0 : envOutcomeFor env agent_name st.ncalls = false := by
        simpa using hfail 0 (by omega)
      rw [hafGo]
      simp only [hs, getCount_ensureRetryEntry, max_ensureRetryEntry, eq_true hlt, ite_true]
      rw [retry_agent_of_some env _ session_id agent_name s
        (by simp only [sleepBackoff_coord, sessions_setCount, sessions_ensureRetryEntry, hs])]
      rw [executeAgent_success]
      simp only [sleepBackoff_ncalls, hf0, executeAgent_coord, sleepBackoff_coord,
        max_setCount, max_ensureRetryEntry, eq_true hlt2, ite_true, Bool.false_eq_true,
        if_false, Nat.add_one]
      refine ih fuel _ s ?_ ?_ ?_ ?_ ?_
      · simp only [executeAgent_coord, sleepBackoff_coord, sessions_setCount,
          sessions_ensureRetryEntry, hs]
      · simp only [executeAgent_coord, sleepBackoff_coord, getCount_setCount,
          max_setCount, max_ensureRetryEntry]
        omega
      · simp only [executeAgent_coord, sleepBackoff_coord, getCount_setCount,
          max_setCount, max_ensureRetryEntry]
        omega
      · intro i hi
        simp only [executeAgent_ncalls, sleepBackoff_ncalls]
        rw [show st.ncalls + 1 + i = st.ncalls + (i + 1) from by omega]
        exact hfail (i + 1) (by omega)
      · simp only [executeAgent_ncalls, sleepBackoff_ncalls]
        rw [show st.ncalls + 1 + j = st.ncalls + (j + 1) from by omega]
        exact hsucc

/-- C9: If an agent fails and a subsequent retry within the budget succeeds
(the oracle reports `j` further failures and then a success, with
`retry_count + j` still below `max_retries`), `handle_agent_failure`
returns recovered (`true`) and removes the agent from the session's
`agents_failed` list (a no-op when it was not present). -/
theorem C9_retry_recovery (env : Env) (st : WorldState)
    (session_id agent_name errMsg : String) (s : ResearchStatus) (j : Nat)
    (hs : st.coord.active_sessions session_id = some s)
    (hj : getCount st.coord session_id agent_name + j < st.coord.max_retries)
    (hfail : ∀ i, i < j → envOutcomeFor env agent_name (st.ncalls + i) = false)
    (hsucc : envOutcomeFor env agent_name (st.ncalls + j) = true) :
    (handle_agent_failure env st session_id agent_name errMsg).2 = true ∧
    (handle_agent_failure env st session_id agent_name errMsg).1.coord.active_sessions
        session_id
      = some { s with agents_failed := s.agents_failed.erase agent_name } := by
  unfold handle_agent_failure
  exact hafGo_recover env session_id agent_name errMsg j st.coord.max_retries st s hs hj
    (by omega) hfail hsucc

/-- C9 at a concrete input: on a fresh `"sess-1"` session with the retry
budget 3, an oracle failing the first execution and succeeding on the
next makes `handle_agent_failure` report recovered and leave the (empty)
failed list unchanged. -/
theorem C9_retry_recovery_witness :
    (handle_agent_failure envRecover stPost3 "sess-1" "valuation_agent" "boom").2 = true ∧
    (handle_agent_failure envRecover stPost3 "sess-1"
        "valuation_agent" "boom").1.coord.active_sessions "sess-1"
      = some { sInit with agents_failed := sInit.agents_failed.erase "valuation_agent" } :=
  C9_retry_recovery envRecover stPost3 "sess-1" "valuation_agent" "boom" sInit 1
    rfl (by decide)
    (fun i hi => by
      have h0 : i = 0 := by omega
      subst h0
      rfl)
    rfl

end StockIQ
